import Mathlib

/-!
Shallow embedding of the opcua-water-station-client tag subsystem:
the tag registry (lib/tags.ts), the `OPCUAClientWrapper` session manager,
write gateway and tag value store (lib/opcClient.ts), the SSE distribution
route (app/api/socket/route.ts), and the page-side EventSource reconnection
logic (app/page.tsx).  Asynchronous session operations are modelled with
explicit outcome oracles; a JS exception escaping a `try` is modelled by
returning the state mutated so far, and an exception with no enclosing
`try` by a dedicated `thrown` result.
-/

namespace WaterStation

/-- Tag names: the closed `TagName` union from lib/tags.ts. -/
inductive TagName where
  | ARU | AUT | BPpompe | BPvanne | REA | arret | marche | niveau | pompe | vanne
deriving DecidableEq

/-- Declared tag value types (`"Boolean" | "Int16" | "Float" | "String"`). -/
inductive TagType where
  | Boolean | Int16 | Float | String
deriving DecidableEq

/-- Access modes (`"Read" | "Write"`). -/
inductive Access where
  | Read | Write
deriving DecidableEq

/-- Per-tag registry record (`interface TagInfo` in lib/tags.ts). -/
structure TagInfo where
  nodeId : String
  type : TagType
  access : List Access
  description : String

/-- The tag registry (`export const tags` in lib/tags.ts). -/
def tags : TagName → TagInfo
  | .ARU => ⟨"ns=4;s=ARU", .Boolean, [.Read, .Write], "Emergency stop button"⟩
  | .AUT => ⟨"ns=4;s=AUT", .Boolean, [.Read, .Write], "Automatic mode"⟩
  | .BPpompe => ⟨"ns=4;s=BPpompe", .Boolean, [.Read], "Pump button status"⟩
  | .BPvanne => ⟨"ns=4;s=BPvanne", .Boolean, [.Read], "Valve button status"⟩
  | .REA => ⟨"ns=4;s=REA", .Boolean, [.Read, .Write], "Reset button"⟩
  | .arret => ⟨"ns=4;s=arret", .Boolean, [.Read, .Write], "Stop button"⟩
  | .marche => ⟨"ns=4;s=marche", .Boolean, [.Read, .Write], "Start button"⟩
  | .niveau => ⟨"ns=4;s=niveau", .Int16, [.Read], "Water level"⟩
  | .pompe => ⟨"ns=4;s=pompe", .Boolean, [.Read, .Write], "Pump control"⟩
  | .vanne => ⟨"ns=4;s=vanne", .Boolean, [.Read, .Write], "Valve control"⟩

/-- Lookup of a raw string name in the registry record, as it happens when the
control API route forwards user input with `tag as TagName`: in JS,
`tags[name]` is `undefined` exactly when this returns `none`. -/
def tagNameOfString (n : String) : Option TagName :=
  if n = "ARU" then some .ARU
  else if n = "AUT" then some .AUT
  else if n = "BPpompe" then some .BPpompe
  else if n = "BPvanne" then some .BPvanne
  else if n = "REA" then some .REA
  else if n = "arret" then some .arret
  else if n = "marche" then some .marche
  else if n = "niveau" then some .niveau
  else if n = "pompe" then some .pompe
  else if n = "vanne" then some .vanne
  else none

/-- Runtime tag values: the boolean / number / string payloads that actually
flow through the untyped (`any`) value plumbing. -/
inductive Value where
  | b (x : Bool)
  | i (x : Int)
  | s (x : String)
deriving DecidableEq

/-- The subset of the node-opcua `DataType` enum used by `writeTag`. -/
inductive DataType where
  | Boolean | Int16 | Float | String | Variant
deriving DecidableEq

/-- The `switch (tag.type)` in `writeTag` choosing the outgoing data type:
only `"Boolean"` and `"Int16"` have cases; everything else falls to the
`default:` branch, `DataType.Variant`. -/
def dataTypeFor : TagType → DataType
  | TagType.Boolean => DataType.Boolean
  | TagType.Int16 => DataType.Int16
  | _ => DataType.Variant

/-- Modelled from the spec's words for comparison (claim C6): the mapping the
spec requires, where each of the four declared value types is authoritative
and maps to its own protocol data type. -/
def declaredDataType : TagType → DataType
  | TagType.Boolean => DataType.Boolean
  | TagType.Int16 => DataType.Int16
  | TagType.Float => DataType.Float
  | TagType.String => DataType.String

/-- The `nodeToWrite` request that `writeTag` forwards to `session.write`
(node id, data-type tag, and the raw caller-supplied value). -/
structure WriteRequest where
  nodeId : String
  dataType : DataType
  value : Value
deriving DecidableEq

/-- The request built by `writeTag` for tag `t` and value `v`. -/
def nodeToWrite (t : TagName) (v : Value) : WriteRequest :=
  { nodeId := (tags t).nodeId, dataType := dataTypeFor (tags t).type, value := v }

/-- State of an `OPCUAClientWrapper`.  `session` / `subscription` record
whether the corresponding nullable field is non-null.  The last three fields
are ghost instrumentation used only to state invariants and do not influence
any behaviour: `mockActive` records that `mockTagValues()` has run (and hence
that its intervals are installed), `observed t` that at least one successful
read or change notification for `t` has occurred, `written t` that at least
one acknowledged successful write to `t` has occurred. -/
structure WrapperState where
  session : Bool
  subscription : Bool
  connected : Bool
  tagValues : TagName → Option Value
  currentUrl : String
  mockActive : Bool
  observed : TagName → Bool
  written : TagName → Bool

/-- The state built by the constructor: every tag value initialized to null. -/
def initState : WrapperState :=
  { session := false
    subscription := false
    connected := false
    tagValues := fun _ => none
    currentUrl := ""
    mockActive := false
    observed := fun _ => false
    written := fun _ => false }

/-- `isConnected()`. -/
def isConnected (s : WrapperState) : Bool :=
  s.connected

/-- Which of the awaited teardown steps inside `disconnect` reject (throw). -/
structure Faults where
  terminateThrows : Bool
  closeThrows : Bool
  clientDisconnectThrows : Bool

/-- All teardown steps succeed. -/
def noFaults : Faults :=
  { terminateThrows := false, closeThrows := false, clientDisconnectThrows := false }

/-- `disconnect()`.  The whole body sits in one `try`/`catch`: a throwing step
aborts the remaining steps, the `catch` only logs, and the method always
resolves.  Mutations made before the throw (nulling a field) persist. -/
def disconnect (f : Faults) (s : WrapperState) : WrapperState :=
  if s.connected = false then s
  else if s.subscription && f.terminateThrows then s
  else
    let s1 := if s.subscription then { s with subscription := false } else s
    if s1.session && f.closeThrows then s1
    else
      let s2 := if s1.session then { s1 with session := false } else s1
      if f.clientDisconnectThrows then s2
      else { s2 with connected := false }

/-- The fixed record assigned to `this.tagValues` by `mockTagValues()`. -/
def mockInitValues : TagName → Option Value
  | .ARU => some (.b false)
  | .AUT => some (.b false)
  | .BPpompe => some (.b true)
  | .BPvanne => some (.b true)
  | .REA => some (.b false)
  | .arret => some (.b false)
  | .marche => some (.b true)
  | .niveau => some (.i 65)
  | .pompe => some (.b true)
  | .vanne => some (.b true)

/-- `mockTagValues()`: replaces the whole store with the fixed mock record and
installs the two simulation intervals (recorded by the ghost `mockActive`). -/
def mockTagValues (s : WrapperState) : WrapperState :=
  { s with tagValues := mockInitValues, mockActive := true }

/-- Body of `connect` once past the same-URL / different-URL guards, applied
to the (possibly just disconnected) state.  `ok` is the outcome of
`client.connect` plus `createSession` within the 10 s timeout; `subOk` is the
outcome of `createSubscription`, whose failure is caught and only logged. -/
def connectBody (env : String) (ok subOk : Bool) (url : String) (s0 : WrapperState) :
    Bool × WrapperState :=
  if ok then
    (true, { s0 with
      session := true
      connected := true
      currentUrl := url
      subscription := if subOk then true else s0.subscription })
  else if env = "development" then
    (true, mockTagValues { s0 with connected := true, currentUrl := url })
  else
    (false, s0)

/-- `connect(endpointUrl)`.  `env` is `process.env.NODE_ENV`. -/
def connect (env : String) (ok subOk : Bool) (f : Faults) (url : String) (s : WrapperState) :
    Bool × WrapperState :=
  if s.connected = true ∧ s.currentUrl = url then (true, s)
  else if s.connected = true ∧ ¬ s.currentUrl = url then
    connectBody env ok subOk url (disconnect f s)
  else
    connectBody env ok subOk url s

/-- Outcome of the awaited `session.write(nodeToWrite)`. -/
inductive WriteOutcome where
  | throws
  | status (good : Bool)

/-- Outcome of the awaited `session.read`. -/
inductive ReadOutcome where
  | throws
  | ret (good : Bool) (v : Value)

/-- Which branch of `writeTag` produced its boolean result (the source returns
`false` from three distinct, log-distinguished branches and `true` from one). -/
inductive WriteResult where
  | notConnected
  | unwritable
  | ok
  | rejectedOrError
deriving DecidableEq

/-- The boolean `writeTag` actually returns for each branch. -/
def WriteResult.toBool : WriteResult → Bool
  | .ok => true
  | _ => false

/-- `writeTag(tagName, value)`.  `sw` gives the session's response to the
forwarded request; a rejection of the awaited write is caught and mapped to
`false` with the store untouched. -/
def writeTag (sw : WriteRequest → WriteOutcome) (t : TagName) (v : Value) (s : WrapperState) :
    WriteResult × WrapperState :=
  if !s.session || !s.connected then (.notConnected, s)
  else if !((tags t).access.contains Access.Write) then (.unwritable, s)
  else
    match sw (nodeToWrite t v) with
    | .throws => (.rejectedOrError, s)
    | .status good =>
      if good then
        (.ok, { s with
          tagValues := Function.update s.tagValues t (some v)
          written := Function.update s.written t true })
      else (.rejectedOrError, s)

/-- `readTag(tagName)`: returns the value read, or `none` (JS `null`) when not
connected, when the tag is not readable, when the status code is not good, or
when the awaited read throws (caught). -/
def readTag (out : ReadOutcome) (t : TagName) (s : WrapperState) :
    Option Value × WrapperState :=
  if !s.session || !s.connected then (none, s)
  else if !((tags t).access.contains Access.Read) then (none, s)
  else
    match out with
    | .throws => (none, s)
    | .ret good v =>
      if good then
        (some v, { s with
          tagValues := Function.update s.tagValues t (some v)
          observed := Function.update s.observed t true })
      else (none, s)

/-- The monitored item's `"changed"` handler: commits the notified value to the
store (and then fans it out to the update callbacks). -/
def onChanged (t : TagName) (v : Value) (s : WrapperState) : WrapperState :=
  { s with
    tagValues := Function.update s.tagValues t (some v)
    observed := Function.update s.observed t true }

/-- JS truthiness negation `!x` as applied to a stored tag value. -/
def jsFalsy : Option Value → Bool
  | none => true
  | some (.b x) => !x
  | some (.i n) => n == 0
  | some (.s str) => str == ""

/-- The fixed candidate list of the boolean-flipping mock interval. -/
def mockBoolCandidates (k : Fin 4) : TagName :=
  if k.1 = 0 then .BPpompe
  else if k.1 = 1 then .BPvanne
  else if k.1 = 2 then .pompe
  else .vanne

/-- The 5 s mock interval: assigns a fresh level value to `niveau`.  The
interval exists only once `mockTagValues` has installed it. -/
def mockNiveauTick (n : Int) (s : WrapperState) : WrapperState :=
  if s.mockActive then
    { s with tagValues := Function.update s.tagValues TagName.niveau (some (Value.i n)) }
  else s

/-- The 15 s mock interval: flips one randomly chosen boolean candidate tag
(`newValue = !this.tagValues[randomTag]`). -/
def mockBoolTick (k : Fin 4) (s : WrapperState) : WrapperState :=
  if s.mockActive then
    let t := mockBoolCandidates k
    { s with tagValues := Function.update s.tagValues t (some (Value.b (jsFalsy (s.tagValues t)))) }
  else s

/-- Result of calling an async method from JS with no enclosing `try` in the
method for the failing step: either a normal result or a raised (untyped)
exception such as the `TypeError` from dereferencing `undefined`. -/
inductive JsOutcome (α : Type) where
  | ok (a : α)
  | thrown

/-- `writeTag` as reachable from the control API route, where the tag name is
an arbitrary string cast with `as TagName`.  The not-connected guard runs
first; then `const tag = tags[tagName]` yields `undefined` for an unknown
name and `tag.access.includes("Write")` throws a TypeError (this happens
before the `try` block, so the exception escapes). -/
def writeTagJs (sw : WriteRequest → WriteOutcome) (name : String) (v : Value)
    (s : WrapperState) : JsOutcome (WriteResult × WrapperState) :=
  if !s.session || !s.connected then JsOutcome.ok (WriteResult.notConnected, s)
  else
    match tagNameOfString name with
    | none => JsOutcome.thrown
    | some t => JsOutcome.ok (writeTag sw t v s)

/-- `readTag` on an arbitrary string name, analogously to `writeTagJs`. -/
def readTagJs (out : ReadOutcome) (name : String) (s : WrapperState) :
    JsOutcome (Option Value × WrapperState) :=
  if !s.session || !s.connected then JsOutcome.ok ((none : Option Value), s)
  else
    match tagNameOfString name with
    | none => JsOutcome.thrown
    | some t => JsOutcome.ok (readTag out t s)

/-- Operations that mutate an `OPCUAClientWrapper`'s state, with their
outcome oracles. -/
inductive WOp where
  | connectOp (env : String) (ok subOk : Bool) (f : Faults) (url : String)
  | disconnectOp (f : Faults)
  | writeOp (out : WriteOutcome) (t : TagName) (v : Value)
  | readOp (out : ReadOutcome) (t : TagName)
  | notifyOp (t : TagName) (v : Value)
  | niveauTickOp (n : Int)
  | boolTickOp (k : Fin 4)

/-- Apply one operation (discarding the returned value). -/
def applyW : WOp → WrapperState → WrapperState
  | .connectOp env ok subOk f url, s => (connect env ok subOk f url s).2
  | .disconnectOp f, s => disconnect f s
  | .writeOp out t v, s => (writeTag (fun _ => out) t v s).2
  | .readOp out t, s => (readTag out t s).2
  | .notifyOp t v, s => onChanged t v s
  | .niveauTickOp n, s => mockNiveauTick n s
  | .boolTickOp k, s => mockBoolTick k s

/-- Run a sequence of operations. -/
def runW : List WOp → WrapperState → WrapperState
  | [], s => s
  | op :: rest, s => runW rest (applyW op s)

/-- The Tag Value Store invariant exactly as claim C9 states it: a stored
value is non-null only for a tag whose access includes Read, and only after
at least one successful read or change notification for that tag. -/
def InvClaimed (s : WrapperState) : Prop :=
  ∀ t, s.tagValues t ≠ none → Access.Read ∈ (tags t).access ∧ s.observed t = true

/-- The invariant the code actually maintains: a stored value is non-null only
for a tag whose access includes Read (true of every registered tag), and only
after a successful read, a change notification, an acknowledged successful
write to that tag, or activation of the development mock fallback. -/
def InvAmended (s : WrapperState) : Prop :=
  ∀ t, s.tagValues t ≠ none →
    Access.Read ∈ (tags t).access ∧
      (s.observed t = true ∨ s.written t = true ∨ s.mockActive = true)

/-- Events enqueued on one SSE client's stream by app/api/socket/route.ts:
the keep-alive comment, the one-off initial snapshot of `getAllTagValues()`,
and per-tag live updates. -/
inductive SSEEvent where
  | ping
  | initial (snap : TagName → Option Value)
  | tagEv (t : TagName) (v : Value)

/-- State of the SSE distribution layer: the wrapper's shared tag store, the
registered `onTagUpdate` callbacks in registration order (one per attached
client, identified by its connection id), and each client's enqueued stream
content. -/
structure SSEServer where
  tagValues : TagName → Option Value
  listeners : List String
  queues : String → List SSEEvent

/-- The server before any client attaches. -/
def sseInit : SSEServer :=
  { tagValues := fun _ => none, listeners := [], queues := fun _ => [] }

/-- Operations on the distribution layer.  JavaScript run-to-completion makes
each of these atomic: the `start(controller)` body of an attach cannot be
interleaved with a notification. -/
inductive SSEOp where
  | attach (cid : String)
  | publish (t : TagName) (v : Value)
  | detach (cid : String)
deriving DecidableEq

/-- Apply one operation, mirroring the source order.  `attach` is the
`start(controller)` body: enqueue the keep-alive ping, register the
`onTagUpdate` callback, then enqueue the initial `getAllTagValues()`
snapshot.  `publish` is the monitored item's change handler: commit to the
store, then deliver one `tag` event to every registered callback.  `detach`
is the abort handler: unsubscribe the callback. -/
def applySSE : SSEOp → SSEServer → SSEServer
  | .attach cid, sv =>
    let q1 := Function.update sv.queues cid (sv.queues cid ++ [SSEEvent.ping])
    { sv with
      listeners := sv.listeners ++ [cid]
      queues := Function.update q1 cid (q1 cid ++ [SSEEvent.initial sv.tagValues]) }
  | .publish t v, sv =>
    { sv with
      tagValues := Function.update sv.tagValues t (some v)
      queues := fun c =>
        if c ∈ sv.listeners then sv.queues c ++ [SSEEvent.tagEv t v] else sv.queues c }
  | .detach cid, sv =>
    { sv with listeners := sv.listeners.filter (fun c => c != cid) }

/-- Run a sequence of distribution operations. -/
def runSSE : List SSEOp → SSEServer → SSEServer
  | [], sv => sv
  | op :: rest, sv => runSSE rest (applySSE op sv)

/-- A stream that starts with the ping and exactly one initial snapshot,
followed only by per-tag events. -/
def initialThenTags (q : List SSEEvent) : Prop :=
  ∃ snap rest, q = SSEEvent.ping :: SSEEvent.initial snap :: rest ∧
    ∀ e ∈ rest, ∃ t v, e = SSEEvent.tagEv t v

/-- `maxRetries` in `connectEventSource` (app/page.tsx). -/
def maxRetries : Nat := 5

/-- `retryDelay` in `connectEventSource`: 3000 ms. -/
def retryDelay : Nat := 3000

/-- Downstream reconnection state.  `retryCount` is the LOCAL variable of the
current invocation of `connectEventSource`: every invocation executes
`let retryCount = 0` afresh, including the invocations re-entered through the
scheduled `setTimeout(connectEventSource, retryDelay)`.  `gaveUp` records
that the terminal "failed after multiple attempts" branch ran;
`retryScheduled` holds the delay of a pending scheduled re-invocation. -/
structure ESState where
  retryCount : Nat
  channelOpen : Bool
  gaveUp : Bool
  retryScheduled : Option Nat
deriving DecidableEq

/-- One invocation of `connectEventSource`: fresh locals (`retryCount = 0`)
and a newly opened EventSource; a pending scheduled retry is consumed. -/
def invokeConnectEventSource (s : ESState) : ESState :=
  { retryCount := 0, channelOpen := true, gaveUp := s.gaveUp, retryScheduled := none }

/-- The `onerror` handler: closes the channel; if `retryCount < maxRetries`,
increments the counter and schedules a reconnect after `retryDelay`;
otherwise surfaces the terminal connection-lost state. -/
def onError (s : ESState) : ESState :=
  if s.retryCount < maxRetries then
    { s with
      channelOpen := false
      retryCount := s.retryCount + 1
      retryScheduled := some retryDelay }
  else
    { s with channelOpen := false, gaveUp := true, retryScheduled := none }

/-- One complete failure cycle: the current channel suffers a transport error;
if that scheduled a retry, the timer then fires and re-invokes
`connectEventSource`. -/
def failureCycle (s : ESState) : ESState :=
  let e := onError s
  match e.retryScheduled with
  | some _ => invokeConnectEventSource e
  | none => e

/-- The controller state after the initial invocation of
`connectEventSource` followed by `n` consecutive failure cycles. -/
def afterFailures : Nat → ESState
  | 0 => invokeConnectEventSource
      { retryCount := 0, channelOpen := false, gaveUp := false, retryScheduled := none }
  | n + 1 => failureCycle (afterFailures n)

/-- A wrapper state with a live session (as after a successful real connect). -/
def connState : WrapperState :=
  { initState with session := true, connected := true }

/-- Fault pattern for claim C3: `subscription.terminate()` rejects. -/
def c3faults : Faults :=
  { terminateThrows := true, closeThrows := false, clientDisconnectThrows := false }

/-- A fully established wrapper (session, subscription, connected). -/
def c3state : WrapperState :=
  { initState with connected := true, session := true, subscription := true }

/-- The state after a failed connect in development mode (mock fallback). -/
def mockFallbackState : WrapperState :=
  (connect "development" false false noFaults "opc.tcp://localhost:4334" initState).2

/-- The state after a successful real connect in production mode. -/
def realConnectState : WrapperState :=
  (connect "production" true true noFaults "opc.tcp://localhost:4334" initState).2

/-- The state reached by connecting for real and then performing one
acknowledged successful write to `ARU`, with no read or notification. -/
def c9state : WrapperState :=
  runW
    [WOp.connectOp "production" true true noFaults "opc.tcp://localhost:4334",
     WOp.writeOp (WriteOutcome.status true) TagName.ARU (Value.b true)]
    initState

/-- Registry fact: every registered tag's access set includes Read. -/
lemma all_tags_readable : ∀ t, Access.Read ∈ (tags t).access := by
  intro t
  cases t <;> decide

/-- Bridge between the source's `access.contains "Write"` test and set
membership. -/
lemma contains_write_iff (t : TagName) :
    (tags t).access.contains Access.Write = true ↔ Access.Write ∈ (tags t).access := by
  cases t <;> decide

/-- Bridge between the source's `access.contains "Read"` test and set
membership. -/
lemma contains_read_iff (t : TagName) :
    (tags t).access.contains Access.Read = true ↔ Access.Read ∈ (tags t).access := by
  cases t <;> decide

/-- Claim C1 (code bug).  Because `retryCount` is a local re-initialized to 0
by every invocation of `connectEventSource`, every failure cycle ends back in
the fresh-invocation state: the attempt counter never accumulates across
scheduled retries, the terminal "gave up" state is unreachable, and after the
5th (indeed any) consecutive failure another retry is still scheduled with
the fixed 3-second delay. -/
theorem c1_retry_counter_resets_every_cycle :
    (∀ n, afterFailures n =
      { retryCount := 0, channelOpen := true, gaveUp := false, retryScheduled := none }) ∧
    (onError (afterFailures 5)).retryScheduled = some retryDelay ∧
    (afterFailures 6).gaveUp = false := by
  refine ⟨?_, by decide, by decide⟩
  intro n
  induction n with
  | zero => rfl
  | succ k ih =>
    rw [show afterFailures (k + 1) = failureCycle (afterFailures k) from rfl, ih]
    rfl

/-- Witness for C1 at a concrete failure count: even after 7 consecutive
failure cycles the controller is back in the fresh-invocation state. -/
theorem c1_witness :
    afterFailures 7 =
      { retryCount := 0, channelOpen := true, gaveUp := false, retryScheduled := none } :=
  c1_retry_counter_resets_every_cycle.1 7

/-- Claim C2 counterexample.  When the development mock fallback triggers, the
wrapper sets `connected = true` with no real session: `isConnected()` reports
exactly what it reports for a genuine connection, so the reported state IS
the Connected report and no distinct Degraded state exists. -/
theorem c2_mock_reports_connected :
    mockFallbackState.mockActive = true ∧
    mockFallbackState.session = false ∧
    isConnected mockFallbackState = true ∧
    isConnected mockFallbackState = isConnected realConnectState := by
  refine ⟨by decide, by decide, by decide, by decide⟩

/-- Helper: `connectBody` enters the mock fallback only when
`env = "development"`; otherwise `mockActive` is inherited. -/
lemma connectBody_mockActive (env : String) (ok subOk : Bool) (url : String)
    (s0 : WrapperState) (h : (connectBody env ok subOk url s0).2.mockActive = true) :
    s0.mockActive = true ∨ env = "development" := by
  unfold connectBody at h
  by_cases hok : ok = true
  · rw [if_pos hok] at h
    exact Or.inl h
  · rw [if_neg hok] at h
    by_cases henv : env = "development"
    · exact Or.inr henv
    · rw [if_neg henv] at h
      exact Or.inl h

/-- Helper: `disconnect` changes none of the store / ghost fields. -/
lemma disconnect_fields (f : Faults) (s : WrapperState) :
    (disconnect f s).tagValues = s.tagValues ∧
    (disconnect f s).observed = s.observed ∧
    (disconnect f s).written = s.written ∧
    (disconnect f s).mockActive = s.mockActive := by
  obtain ⟨ft, fc, fd⟩ := f
  obtain ⟨sn, sb, cn, tv, url, ma, ob, wr⟩ := s
  cases sn <;> cases sb <;> cases cn <;> cases ft <;> cases fc <;> cases fd <;>
    exact ⟨rfl, rfl, rfl, rfl⟩

/-- Claim C2, amended.  The mock fallback can only activate when
`NODE_ENV = "development"`; in any other environment a failed connect returns
`false` and leaves the state untouched (the failure is surfaced); and when
the fallback does activate, the wrapper reports `isConnected() = true` - the
same report as a real connection, not a distinct degraded state. -/
theorem c2_amended_mock_only_in_development :
    (∀ env ok subOk f url s, (connect env ok subOk f url s).2.mockActive = true →
      s.mockActive = true ∨ env = "development") ∧
    (∀ env subOk f url s, env ≠ "development" → s.connected = false →
      connect env false subOk f url s = (false, s)) ∧
    isConnected mockFallbackState = true := by
  refine ⟨?_, ?_, by decide⟩
  · intro env ok subOk f url s h
    unfold connect at h
    by_cases h1 : s.connected = true ∧ s.currentUrl = url
    · rw [if_pos h1] at h
      exact Or.inl h
    · rw [if_neg h1] at h
      by_cases h2 : s.connected = true ∧ ¬ s.currentUrl = url
      · rw [if_pos h2] at h
        rcases connectBody_mockActive _ _ _ _ _ h with h3 | h3
        · exact Or.inl ((disconnect_fields f s).2.2.2 ▸ h3)
        · exact Or.inr h3
      · rw [if_neg h2] at h
        exact connectBody_mockActive _ _ _ _ _ h
  · intro env subOk f url s henv hconn
    unfold connect
    rw [if_neg (by simp [hconn]), if_neg (by simp [hconn])]
    unfold connectBody
    rw [if_neg (by simp), if_neg henv]

/-- Witness for the amended C2: in production, a failed connect from the
initial state surfaces `false` and changes nothing. -/
theorem c2_amended_witness :
    connect "production" false false noFaults "u" initState = (false, initState) :=
  c2_amended_mock_only_in_development.2.1 "production" false noFaults "u" initState
    (by decide) rfl

/-- Claim C3 counterexample.  All three teardown steps sit in ONE
`try`/`catch`: when `subscription.terminate()` rejects, the session-close and
client-disconnect steps are never attempted and the wrapper still reports
connected, so a failure in one step DOES prevent attempting the next and the
end state is not Disconnected. -/
theorem c3_terminate_failure_aborts_teardown :
    (disconnect c3faults c3state).session = true ∧
    (disconnect c3faults c3state).subscription = true ∧
    (disconnect c3faults c3state).connected = true := by
  refine ⟨by decide, by decide, by decide⟩

/-- Claim C3, amended.  `disconnect()` tears down subscription, session and
transport in that order inside a single guarded block and always resolves
successfully; calling it when already disconnected is a no-op; with no
teardown failure the end state is fully disconnected; but a failure in one
step aborts the remaining steps (it is caught, logged, and the method still
resolves), leaving the wrapper still marked connected. -/
theorem c3_disconnect_amended :
    (∀ f s, s.connected = false → disconnect f s = s) ∧
    (∀ s, s.connected = true →
      (disconnect noFaults s).connected = false ∧
      (disconnect noFaults s).subscription = false ∧
      (disconnect noFaults s).session = false) ∧
    (∀ f s, s.connected = true → s.subscription = true → f.terminateThrows = true →
      disconnect f s = s) := by
  refine ⟨?_, ?_, ?_⟩
  · intro f s h
    unfold disconnect
    rw [if_pos h]
  · intro s h
    obtain ⟨sn, sb, cn, tv, url, ma, ob, wr⟩ := s
    subst h
    cases sn <;> cases sb <;> exact ⟨rfl, rfl, rfl⟩
  · intro f s h1 h2 h3
    unfold disconnect
    rw [if_neg (by simp [h1]), if_pos (by simp [h2, h3])]

/-- Witness for the amended C3: a no-op second disconnect, and a full teardown
from an established state. -/
theorem c3_amended_witness :
    disconnect noFaults initState = initState ∧
    (disconnect noFaults c3state).connected = false :=
  ⟨c3_disconnect_amended.1 noFaults initState rfl,
   (c3_disconnect_amended.2.1 c3state rfl).1⟩

/-- Claim C4 (confirmed).  `writeTag` succeeds only for tags whose access set
includes Write; the preconditions are checked in order - with no connected
session the result is the not-connected failure regardless of the tag, and
with a session but no Write access it is the unwritable failure - and in
both failure cases the whole state (in particular the stored value of the
tag) is unchanged. -/
theorem c4_write_preconditions :
    (∀ sw t v s, (writeTag sw t v s).1 = WriteResult.ok → Access.Write ∈ (tags t).access) ∧
    (∀ sw t v s, s.session = false ∨ s.connected = false →
      writeTag sw t v s = (WriteResult.notConnected, s)) ∧
    (∀ sw t v s, s.session = true → s.connected = true → Access.Write ∉ (tags t).access →
      writeTag sw t v s = (WriteResult.unwritable, s)) := by
  refine ⟨?_, ?_, ?_⟩
  · intro sw t v s h
    by_cases hm : Access.Write ∈ (tags t).access
    · exact hm
    · exfalso
      unfold writeTag at h
      by_cases h1 : (!s.session || !s.connected) = true
      · rw [if_pos h1] at h
        simp at h
      · have h2' : (!((tags t).access.contains Access.Write)) = true := by simpa using hm
        rw [if_neg h1, if_pos h2'] at h
        simp at h
  · intro sw t v s h
    have h1 : (!s.session || !s.connected) = true := by
      rcases h with h | h <;> simp [h]
    unfold writeTag
    rw [if_pos h1]
  · intro sw t v s hs hc hw
    have hng : ¬ ((!s.session || !s.connected) = true) := by simp [hs, hc]
    have h2' : (!((tags t).access.contains Access.Write)) = true := by simpa using hw
    unfold writeTag
    rw [if_neg hng, if_pos h2']

/-- Witness for C4: writing the read-only `niveau` on a connected session is
unwritable, and any write with no session is the not-connected failure; both
leave the state untouched.  (This is the spec scenario
`write("niveau", 10)` fails with Unwritable.) -/
theorem c4_witness :
    writeTag (fun _ => WriteOutcome.status true) TagName.niveau (Value.i 10) connState =
      (WriteResult.unwritable, connState) ∧
    writeTag (fun _ => WriteOutcome.status true) TagName.ARU (Value.b true) initState =
      (WriteResult.notConnected, initState) :=
  ⟨c4_write_preconditions.2.2 _ TagName.niveau (Value.i 10) connState rfl rfl (by decide),
   c4_write_preconditions.2.1 _ TagName.ARU (Value.b true) initState (Or.inl rfl)⟩

/-- Claim C5 (confirmed).  On an acknowledged good status, `writeTag` commits
the written value to that tag's store entry and changes no other tag's entry
and not the connection flag (optimistic local commit, no re-read); on an
acknowledged bad status or a transport error the state is left completely
untouched. -/
theorem c5_write_frame :
    (∀ t v s, s.session = true → s.connected = true → Access.Write ∈ (tags t).access →
      (writeTag (fun _ => WriteOutcome.status true) t v s).1 = WriteResult.ok ∧
      (writeTag (fun _ => WriteOutcome.status true) t v s).2.tagValues t = some v ∧
      (∀ t', t' ≠ t →
        (writeTag (fun _ => WriteOutcome.status true) t v s).2.tagValues t' = s.tagValues t') ∧
      (writeTag (fun _ => WriteOutcome.status true) t v s).2.connected = s.connected) ∧
    (∀ t v s, (writeTag (fun _ => WriteOutcome.status false) t v s).2 = s) ∧
    (∀ t v s, (writeTag (fun _ => WriteOutcome.throws) t v s).2 = s) := by
  refine ⟨?_, ?_, ?_⟩
  · intro t v s hs hc hw
    have hng : ¬ ((!s.session || !s.connected) = true) := by simp [hs, hc]
    have hnw : ¬ ((!((tags t).access.contains Access.Write)) = true) := by simpa using hw
    have hred : writeTag (fun _ => WriteOutcome.status true) t v s =
        (WriteResult.ok, { s with
          tagValues := Function.update s.tagValues t (some v)
          written := Function.update s.written t true }) := by
      unfold writeTag
      rw [if_neg hng, if_neg hnw]
      rfl
    rw [hred]
    refine ⟨rfl, Function.update_same t (some v) s.tagValues, fun t' ht' => ?_, rfl⟩
    exact Function.update_noteq ht' (some v) s.tagValues
  · intro t v s
    unfold writeTag
    by_cases h1 : (!s.session || !s.connected) = true
    · rw [if_pos h1]
    · rw [if_neg h1]
      by_cases h2 : (!((tags t).access.contains Access.Write)) = true
      · rw [if_pos h2]
      · rw [if_neg h2]
        rfl
  · intro t v s
    unfold writeTag
    by_cases h1 : (!s.session || !s.connected) = true
    · rw [if_pos h1]
    · rw [if_neg h1]
      by_cases h2 : (!((tags t).access.contains Access.Write)) = true
      · rw [if_pos h2]
      · rw [if_neg h2]

/-- Witness for C5: the spec scenario - `write("ARU", true)` on a connected
session succeeds and `get("ARU")` is `true` immediately after. -/
theorem c5_witness :
    (writeTag (fun _ => WriteOutcome.status true) TagName.ARU (Value.b true) connState).1 =
      WriteResult.ok ∧
    (writeTag (fun _ => WriteOutcome.status true) TagName.ARU (Value.b true)
      connState).2.tagValues TagName.ARU = some (Value.b true) :=
  ⟨(c5_write_frame.1 TagName.ARU (Value.b true) connState rfl rfl (by decide)).1,
   (c5_write_frame.1 TagName.ARU (Value.b true) connState rfl rfl (by decide)).2.1⟩

/-- Claim C6 counterexample.  The declared type is NOT authoritative for every
one of the four declared value types: the `switch` in `writeTag` has cases
only for Boolean and Int16, so a tag declared Float is forwarded tagged as
the generic Variant data type, not as Float. -/
theorem c6_float_encoded_as_variant :
    dataTypeFor TagType.Float ≠ declaredDataType TagType.Float ∧
    dataTypeFor TagType.Float = DataType.Variant ∧
    dataTypeFor TagType.String ≠ declaredDataType TagType.String := by
  refine ⟨by decide, by decide, by decide⟩

/-- Claim C6, amended.  The write gateway forwards
`(nodeId, dataType, rawValue)` where the data-type tag is computed from the
tag's declared type: Boolean and Int16 map to their own data types (so for
every writable tag actually in the registry - all Boolean - the declared type
is authoritative), while declared Float and String fall to the generic
Variant tag; the caller-supplied value itself is passed through unchanged. -/
theorem c6_declared_type_partially_authoritative :
    (∀ t : TagName, Access.Write ∈ (tags t).access →
      dataTypeFor (tags t).type = declaredDataType (tags t).type) ∧
    (∀ t v, (nodeToWrite t v).dataType = dataTypeFor (tags t).type ∧
      (nodeToWrite t v).nodeId = (tags t).nodeId ∧ (nodeToWrite t v).value = v) ∧
    dataTypeFor TagType.Boolean = DataType.Boolean ∧
    dataTypeFor TagType.Int16 = DataType.Int16 ∧
    dataTypeFor TagType.Float = DataType.Variant ∧
    dataTypeFor TagType.String = DataType.Variant := by
  refine ⟨?_, fun t v => ⟨rfl, rfl, rfl⟩, rfl, rfl, rfl, rfl⟩
  intro t
  cases t <;> decide

/-- Witness for the amended C6 at the writable tag `ARU`. -/
theorem c6_amended_witness :
    dataTypeFor (tags TagName.ARU).type = declaredDataType (tags TagName.ARU).type :=
  c6_declared_type_partially_authoritative.1 TagName.ARU (by decide)

/-- Claim C7 counterexample.  Operating on a name that is not in the registry
does not fail with a typed UnknownTag error: with a connected session, both
`writeTag` and `readTag` dereference the `undefined` registry entry and raise
an untyped TypeError (the code has no UnknownTag error at all). -/
theorem c7_unknown_tag_throws :
    writeTagJs (fun _ => WriteOutcome.status true) "bogus" (Value.b true) connState =
      JsOutcome.thrown ∧
    readTagJs (ReadOutcome.ret true (Value.b true)) "bogus" connState = JsOutcome.thrown :=
  ⟨rfl, rfl⟩

/-- Claim C7, amended.  For every name not in the registry, an operation never
silently succeeds: with no connected session it fails as not-connected (that
guard runs before the registry lookup), and with a connected session the
`undefined` lookup raises an untyped TypeError; no typed UnknownTag error
exists in the code. -/
theorem c7_unknown_tag_amended :
    (∀ name sw v s, tagNameOfString name = none → s.session = true → s.connected = true →
      writeTagJs sw name v s = JsOutcome.thrown) ∧
    (∀ name out s, tagNameOfString name = none → s.session = true → s.connected = true →
      readTagJs out name s = JsOutcome.thrown) ∧
    (∀ name sw v s, s.session = false ∨ s.connected = false →
      writeTagJs sw name v s = JsOutcome.ok (WriteResult.notConnected, s)) ∧
    (∀ name out s, s.session = false ∨ s.connected = false →
      readTagJs out name s = JsOutcome.ok ((none : Option Value), s)) := by
  refine ⟨?_, ?_, ?_, ?_⟩
  · intro name sw v s hname hs hc
    unfold writeTagJs
    rw [if_neg (by simp [hs, hc]), hname]
  · intro name out s hname hs hc
    unfold readTagJs
    rw [if_neg (by simp [hs, hc]), hname]
  · intro name sw v s h
    have h1 : (!s.session || !s.connected) = true := by
      rcases h with h | h <;> simp [h]
    unfold writeTagJs
    rw [if_pos h1]
  · intro name out s h
    have h1 : (!s.session || !s.connected) = true := by
      rcases h with h | h <;> simp [h]
    unfold readTagJs
    rw [if_pos h1]

/-- Witness for the amended C7 at the unregistered name `"flow"`. -/
theorem c7_amended_witness :
    writeTagJs (fun _ => WriteOutcome.status true) "flow" (Value.i 1) connState =
      JsOutcome.thrown ∧
    readTagJs ReadOutcome.throws "flow" initState =
      JsOutcome.ok ((none : Option Value), initState) :=
  ⟨c7_unknown_tag_amended.1 "flow" _ (Value.i 1) connState (by decide) rfl rfl,
   c7_unknown_tag_amended.2.2.2 "flow" ReadOutcome.throws initState (Or.inl rfl)⟩

/-- Claim C10 (confirmed).  `readTag` is total: in every failure case (no
connected session, tag not readable, bad status code, underlying read throws)
it returns null and leaves the state - in particular the store entry for the
tag - unchanged, and on a good status it returns the value read and commits
it to the store. -/
theorem c10_readTag_total :
    (∀ out t s, s.session = false ∨ s.connected = false → readTag out t s = (none, s)) ∧
    (∀ out t s, Access.Read ∉ (tags t).access → readTag out t s = (none, s)) ∧
    (∀ t s, readTag ReadOutcome.throws t s = (none, s)) ∧
    (∀ v t s, readTag (ReadOutcome.ret false v) t s = (none, s)) ∧
    (∀ v t s, s.session = true → s.connected = true → Access.Read ∈ (tags t).access →
      readTag (ReadOutcome.ret true v) t s =
        (some v, { s with
          tagValues := Function.update s.tagValues t (some v)
          observed := Function.update s.observed t true })) := by
  refine ⟨?_, ?_, ?_, ?_, ?_⟩
  · intro out t s h
    have h1 : (!s.session || !s.connected) = true := by
      rcases h with h | h <;> simp [h]
    unfold readTag
    rw [if_pos h1]
  · intro out t s h
    have h2' : (!((tags t).access.contains Access.Read)) = true := by simpa using h
    unfold readTag
    by_cases h1 : (!s.session || !s.connected) = true
    · rw [if_pos h1]
    · rw [if_neg h1, if_pos h2']
  · intro t s
    unfold readTag
    by_cases h1 : (!s.session || !s.connected) = true
    · rw [if_pos h1]
    · rw [if_neg h1]
      by_cases h2 : (!((tags t).access.contains Access.Read)) = true
      · rw [if_pos h2]
      · rw [if_neg h2]
  · intro v t s
    unfold readTag
    by_cases h1 : (!s.session || !s.connected) = true
    · rw [if_pos h1]
    · rw [if_neg h1]
      by_cases h2 : (!((tags t).access.contains Access.Read)) = true
      · rw [if_pos h2]
      · rw [if_neg h2]
        rfl
  · intro v t s hs hc hr
    have hng : ¬ ((!s.session || !s.connected) = true) := by simp [hs, hc]
    have hnr : ¬ ((!((tags t).access.contains Access.Read)) = true) := by simpa using hr
    unfold readTag
    rw [if_neg hng, if_neg hnr]
    rfl

/-- Witness for C10: a good read of `niveau` on a connected session returns
and commits the value; a read with no session returns null unchanged. -/
theorem c10_witness :
    readTag (ReadOutcome.ret true (Value.i 42)) TagName.niveau connState =
      (some (Value.i 42), { connState with
        tagValues := Function.update connState.tagValues TagName.niveau (some (Value.i 42))
        observed := Function.update connState.observed TagName.niveau true }) ∧
    readTag ReadOutcome.throws TagName.niveau initState = (none, initState) :=
  ⟨c10_readTag_total.2.2.2.2 (Value.i 42) TagName.niveau connState rfl rfl (by decide),
   c10_readTag_total.2.2.1 TagName.niveau initState⟩

/-- Helper: the amended store invariant transports between states with the
same store and ghost fields. -/
lemma invAmended_congr {s s' : WrapperState}
    (hv : s'.tagValues = s.tagValues) (ho : s'.observed = s.observed)
    (hw : s'.written = s.written) (hm : s'.mockActive = s.mockActive)
    (h : InvAmended s) : InvAmended s' := by
  intro t ht
  rw [hv] at ht
  rcases h t ht with ⟨hr, hd⟩
  rw [ho, hw, hm]
  exact ⟨hr, hd⟩

/-- Helper: once the mock fallback is active the amended invariant is
immediate (every registered tag is readable). -/
lemma invAmended_of_mock {s : WrapperState} (hm : s.mockActive = true) : InvAmended s :=
  fun t _ => ⟨all_tags_readable t, Or.inr (Or.inr hm)⟩

/-- Helper: `disconnect` preserves the amended store invariant. -/
lemma invAmended_disconnect (f : Faults) {s : WrapperState} (h : InvAmended s) :
    InvAmended (disconnect f s) :=
  invAmended_congr (disconnect_fields f s).1 (disconnect_fields f s).2.1
    (disconnect_fields f s).2.2.1 (disconnect_fields f s).2.2.2 h

/-- Helper: `connectBody` preserves the amended store invariant. -/
lemma invAmended_connectBody (env : String) (ok subOk : Bool) (url : String)
    {s0 : WrapperState} (h : InvAmended s0) :
    InvAmended (connectBody env ok subOk url s0).2 := by
  unfold connectBody
  by_cases hok : ok = true
  · rw [if_pos hok]
    exact invAmended_congr rfl rfl rfl rfl h
  · rw [if_neg hok]
    by_cases henv : env = "development"
    · rw [if_pos henv]
      exact invAmended_of_mock rfl
    · rw [if_neg henv]
      exact h

/-- Helper: `connect` preserves the amended store invariant. -/
lemma invAmended_connect (env : String) (ok subOk : Bool) (f : Faults) (url : String)
    {s : WrapperState} (h : InvAmended s) :
    InvAmended (connect env ok subOk f url s).2 := by
  unfold connect
  by_cases h1 : s.connected = true ∧ s.currentUrl = url
  · rw [if_pos h1]
    exact h
  · rw [if_neg h1]
    by_cases h2 : s.connected = true ∧ ¬ s.currentUrl = url
    · rw [if_pos h2]
      exact invAmended_connectBody env ok subOk url (invAmended_disconnect f h)
    · rw [if_neg h2]
      exact invAmended_connectBody env ok subOk url h

/-- Helper: `writeTag` either leaves the state unchanged or commits the value
to the written tag (recording the ghost `written` cause). -/
lemma writeTag_cases (sw : WriteRequest → WriteOutcome) (t : TagName) (v : Value)
    (s : WrapperState) :
    (writeTag sw t v s).2 = s ∨
    (writeTag sw t v s).2 = { s with
      tagValues := Function.update s.tagValues t (some v)
      written := Function.update s.written t true } := by
  unfold writeTag
  by_cases h1 : (!s.session || !s.connected) = true
  · rw [if_pos h1]
    exact Or.inl rfl
  · rw [if_neg h1]
    by_cases h2 : (!((tags t).access.contains Access.Write)) = true
    · rw [if_pos h2]
      exact Or.inl rfl
    · rw [if_neg h2]
      cases hsw : sw (nodeToWrite t v) with
      | throws => exact Or.inl rfl
      | status good =>
        cases good
        · exact Or.inl rfl
        · exact Or.inr rfl

/-- Helper: `readTag` either leaves the state unchanged or commits some read
value to the tag (recording the ghost `observed` cause). -/
lemma readTag_cases (out : ReadOutcome) (t : TagName) (s : WrapperState) :
    (readTag out t s).2 = s ∨
    ∃ v, (readTag out t s).2 = { s with
      tagValues := Function.update s.tagValues t (some v)
      observed := Function.update s.observed t true } := by
  unfold readTag
  by_cases h1 : (!s.session || !s.connected) = true
  · rw [if_pos h1]
    exact Or.inl rfl
  · rw [if_neg h1]
    by_cases h2 : (!((tags t).access.contains Access.Read)) = true
    · rw [if_pos h2]
      exact Or.inl rfl
    · rw [if_neg h2]
      cases out with
      | throws => exact Or.inl rfl
      | ret good v =>
        cases good
        · exact Or.inl rfl
        · exact Or.inr ⟨v, rfl⟩

/-- Helper: committing `some v` to tag `t` preserves the amended invariant
provided the commit also records one of the ghost causes at `t`. -/
lemma invAmended_commit (t : TagName) (v : Value) {s : WrapperState}
    (h : InvAmended s) (s' : WrapperState)
    (hv : s'.tagValues = Function.update s.tagValues t (some v))
    (ho : s'.observed = s.observed ∨ s'.observed = Function.update s.observed t true)
    (hw : s'.written = s.written ∨ s'.written = Function.update s.written t true)
    (hm : s'.mockActive = s.mockActive)
    (hcause : s'.observed t = true ∨ s'.written t = true) :
    InvAmended s' := by
  intro t' ht'
  by_cases he : t' = t
  · subst he
    refine ⟨all_tags_readable t', ?_⟩
    rcases hcause with hx | hx
    · exact Or.inl hx
    · exact Or.inr (Or.inl hx)
  · have ht'' : s.tagValues t' ≠ none := by
      rw [hv, Function.update_noteq he (some v) s.tagValues] at ht'
      exact ht'
    rcases h t' ht'' with ⟨hr, hd⟩
    refine ⟨hr, ?_⟩
    rcases hd with hd | hd | hd
    · refine Or.inl ?_
      rcases ho with hx | hx
      · rw [hx]; exact hd
      · rw [hx, Function.update_noteq he true s.observed]; exact hd
    · refine Or.inr (Or.inl ?_)
      rcases hw with hx | hx
      · rw [hx]; exact hd
      · rw [hx, Function.update_noteq he true s.written]; exact hd
    · exact Or.inr (Or.inr (hm ▸ hd))

/-- Helper: `writeTag` preserves the amended store invariant. -/
lemma invAmended_writeTag (sw : WriteRequest → WriteOutcome) (t : TagName) (v : Value)
    {s : WrapperState} (h : InvAmended s) : InvAmended (writeTag sw t v s).2 := by
  rcases writeTag_cases sw t v s with hcase | hcase
  · rw [hcase]
    exact h
  · rw [hcase]
    refine invAmended_commit t v h _ rfl (Or.inl rfl) (Or.inr rfl) rfl
      (Or.inr ?_)
    show Function.update s.written t true t = true
    exact Function.update_same t true s.written

/-- Helper: `readTag` preserves the amended store invariant. -/
lemma invAmended_readTag (out : ReadOutcome) (t : TagName) {s : WrapperState}
    (h : InvAmended s) : InvAmended (readTag out t s).2 := by
  rcases readTag_cases out t s with hcase | ⟨v, hcase⟩
  · rw [hcase]
    exact h
  · rw [hcase]
    refine invAmended_commit t v h _ rfl (Or.inr rfl) (Or.inl rfl) rfl
      (Or.inl ?_)
    show Function.update s.observed t true t = true
    exact Function.update_same t true s.observed

/-- Helper: a change notification preserves the amended store invariant. -/
lemma invAmended_onChanged (t : TagName) (v : Value) {s : WrapperState}
    (h : InvAmended s) : InvAmended (onChanged t v s) := by
  refine invAmended_commit t v h _ rfl (Or.inr rfl) (Or.inl rfl) rfl
    (Or.inl ?_)
  show Function.update s.observed t true t = true
  exact Function.update_same t true s.observed

/-- Helper: the mock level interval preserves the amended store invariant. -/
lemma invAmended_niveauTick (n : Int) {s : WrapperState} (h : InvAmended s) :
    InvAmended (mockNiveauTick n s) := by
  unfold mockNiveauTick
  by_cases hm : s.mockActive = true
  · rw [if_pos hm]
    exact invAmended_of_mock hm
  · rw [if_neg hm]
    exact h

/-- Helper: the mock boolean-flip interval preserves the amended invariant. -/
lemma invAmended_boolTick (k : Fin 4) {s : WrapperState} (h : InvAmended s) :
    InvAmended (mockBoolTick k s) := by
  unfold mockBoolTick
  by_cases hm : s.mockActive = true
  · rw [if_pos hm]
    exact invAmended_of_mock hm
  · rw [if_neg hm]
    exact h

/-- Helper: every operation preserves the amended store invariant. -/
lemma invAmended_apply (op : WOp) {s : WrapperState} (h : InvAmended s) :
    InvAmended (applyW op s) := by
  cases op with
  | connectOp env ok subOk f url => exact invAmended_connect env ok subOk f url h
  | disconnectOp f => exact invAmended_disconnect f h
  | writeOp out t v => exact invAmended_writeTag (fun _ => out) t v h
  | readOp out t => exact invAmended_readTag out t h
  | notifyOp t v => exact invAmended_onChanged t v h
  | niveauTickOp n => exact invAmended_niveauTick n h
  | boolTickOp k => exact invAmended_boolTick k h

/-- Helper: running any operation sequence preserves the amended invariant. -/
lemma invAmended_runW (ops : List WOp) :
    ∀ {s : WrapperState}, InvAmended s → InvAmended (runW ops s) := by
  induction ops with
  | nil => intro s h; exact h
  | cons op rest ih => intro s h; exact ih (invAmended_apply op h)

/-- Claim C9 counterexample.  The invariant as claimed is violated by a
reachable state: connect in production, then one acknowledged successful
write to `ARU`.  The stored value of `ARU` becomes non-null although no
successful read or change notification for `ARU` has ever occurred. -/
theorem c9_write_violates_claimed_invariant :
    c9state.tagValues TagName.ARU = some (Value.b true) ∧
    c9state.observed TagName.ARU = false ∧
    ¬ InvClaimed c9state := by
  refine ⟨by decide, by decide, ?_⟩
  intro h
  have h2 := (h TagName.ARU (by decide)).2
  have h3 : c9state.observed TagName.ARU = false := by decide
  rw [h3] at h2
  exact Bool.false_ne_true h2

/-- Claim C9, amended.  Invariant preserved by every operation of the
subsystem (initialization, connect, degraded fallback, read, write,
notification, mock intervals): a tag's stored value is non-null only if that
tag's access includes Read, and only after at least one successful read or
change notification for that tag, an acknowledged successful write to that
tag, or activation of the development mock fallback (which seeds every
tag). -/
theorem c9_store_invariant_amended : ∀ ops : List WOp, InvAmended (runW ops initState) :=
  fun ops => invAmended_runW ops (fun _ ht => absurd rfl ht)

/-- Witness for the amended C9: after the mock fallback, the non-null `niveau`
entry satisfies the invariant's conclusion. -/
theorem c9_amended_witness :
    Access.Read ∈ (tags TagName.niveau).access ∧
      ((runW [WOp.connectOp "development" false false noFaults "u"]
          initState).observed TagName.niveau = true ∨
        (runW [WOp.connectOp "development" false false noFaults "u"]
          initState).written TagName.niveau = true ∨
        (runW [WOp.connectOp "development" false false noFaults "u"]
          initState).mockActive = true) :=
  c9_store_invariant_amended [WOp.connectOp "development" false false noFaults "u"]
    TagName.niveau (by decide)

/-- Helper: `runSSE` distributes over list append. -/
lemma runSSE_append (L1 L2 : List SSEOp) (sv : SSEServer) :
    runSSE (L1 ++ L2) sv = runSSE L2 (runSSE L1 sv) := by
  induction L1 generalizing sv with
  | nil => rfl
  | cons op rest ih => exact ih (applySSE op sv)

/-- Helper: appending one tag event preserves the good stream shape. -/
lemma initialThenTags_append_tag (q : List SSEEvent) (t : TagName) (v : Value)
    (h : initialThenTags q) : initialThenTags (q ++ [SSEEvent.tagEv t v]) := by
  obtain ⟨snap, rest, hq, hall⟩ := h
  refine ⟨snap, rest ++ [SSEEvent.tagEv t v], by rw [hq]; rfl, ?_⟩
  intro e he
  rcases List.mem_append.1 he with hx | hx
  · exact hall e hx
  · exact ⟨t, v, List.mem_singleton.1 hx⟩

/-- Helper: before a client attaches, no operation touches its queue or
registers it. -/
lemma sse_untouched (c : String) (L : List SSEOp) :
    ∀ sv : SSEServer, (SSEOp.attach c) ∉ L → c ∉ sv.listeners →
      (runSSE L sv).queues c = sv.queues c ∧ c ∉ (runSSE L sv).listeners := by
  induction L with
  | nil =>
    intro sv _ hc
    exact ⟨rfl, hc⟩
  | cons op rest ih =>
    intro sv hL hc
    have hRest : (SSEOp.attach c) ∉ rest := fun hx => hL (List.mem_cons_of_mem _ hx)
    have hOp : SSEOp.attach c ≠ op := fun hx => hL (hx ▸ List.mem_cons_self _ _)
    have step : (applySSE op sv).queues c = sv.queues c ∧
        c ∉ (applySSE op sv).listeners := by
      cases op with
      | attach c2 =>
        have hne : c ≠ c2 := fun hx => hOp (by rw [hx])
        constructor
        · simp [applySSE, Function.update_noteq hne]
        · intro hmem
          rcases List.mem_append.1 hmem with hx | hx
          · exact hc hx
          · exact hne (List.mem_singleton.1 hx)
      | publish t v =>
        constructor
        · show (if c ∈ sv.listeners then sv.queues c ++ [SSEEvent.tagEv t v]
            else sv.queues c) = sv.queues c
          rw [if_neg hc]
        · exact hc
      | detach c2 =>
        constructor
        · rfl
        · intro hmem
          exact hc (List.mem_of_mem_filter hmem)
    obtain ⟨hq, hl⟩ := ih (applySSE op sv) hRest step.2
    refine ⟨?_, ?_⟩
    · show (runSSE rest (applySSE op sv)).queues c = sv.queues c
      rw [hq, step.1]
    · show c ∉ (runSSE rest (applySSE op sv)).listeners
      exact hl

/-- Helper: once a client's stream has the good shape, every later operation
other than a re-attach of that client preserves it - notifications only ever
append `tag` events. -/
lemma sse_shape_preserved (c : String) (L : List SSEOp) :
    ∀ sv : SSEServer, (SSEOp.attach c) ∉ L → initialThenTags (sv.queues c) →
      initialThenTags ((runSSE L sv).queues c) := by
  induction L with
  | nil =>
    intro sv _ h
    exact h
  | cons op rest ih =>
    intro sv hL h
    have hRest : (SSEOp.attach c) ∉ rest := fun hx => hL (List.mem_cons_of_mem _ hx)
    have hOp : SSEOp.attach c ≠ op := fun hx => hL (hx ▸ List.mem_cons_self _ _)
    have step : initialThenTags ((applySSE op sv).queues c) := by
      cases op with
      | attach c2 =>
        have hne : c ≠ c2 := fun hx => hOp (by rw [hx])
        have hq : (applySSE (SSEOp.attach c2) sv).queues c = sv.queues c := by
          simp [applySSE, Function.update_noteq hne]
        rw [hq]
        exact h
      | publish t v =>
        show initialThenTags (if c ∈ sv.listeners
          then sv.queues c ++ [SSEEvent.tagEv t v] else sv.queues c)
        by_cases hmem : c ∈ sv.listeners
        · rw [if_pos hmem]
          exact initialThenTags_append_tag _ t v h
        · rw [if_neg hmem]
          exact h
      | detach c2 => exact h
    exact ih (applySSE op sv) hRest step

/-- Claim C8 (confirmed).  For any surrounding activity in which a client
attaches exactly once, the stream delivered to that client is the keep-alive
ping followed by exactly one initial full-snapshot event, and every event
after it is a per-tag live event: the synthetic initial snapshot is
delivered before any `tag` event reaches that listener.  (The attach body
runs to completion, so no notification can interleave between callback
registration and the snapshot enqueue.) -/
theorem c8_attach_initial_before_tags (L1 L2 : List SSEOp) (c : String) (sv : SSEServer)
    (h1 : (SSEOp.attach c) ∉ L1) (h2 : (SSEOp.attach c) ∉ L2)
    (hc : c ∉ sv.listeners) (hq : sv.queues c = []) :
    initialThenTags ((runSSE (L1 ++ SSEOp.attach c :: L2) sv).queues c) := by
  rw [runSSE_append]
  obtain ⟨hq1, hl1⟩ := sse_untouched c L1 sv h1 hc
  have hq1' : (runSSE L1 sv).queues c = [] := by rw [hq1, hq]
  have hattach : (applySSE (SSEOp.attach c) (runSSE L1 sv)).queues c =
      [SSEEvent.ping, SSEEvent.initial (runSSE L1 sv).tagValues] := by
    simp [applySSE, hq1']
  have hshape : initialThenTags ((applySSE (SSEOp.attach c) (runSSE L1 sv)).queues c) := by
    rw [hattach]
    exact ⟨(runSSE L1 sv).tagValues, [], rfl,
      fun e he => absurd he (List.not_mem_nil e)⟩
  show initialThenTags ((runSSE L2 (applySSE (SSEOp.attach c) (runSSE L1 sv))).queues c)
  exact sse_shape_preserved c L2 (applySSE (SSEOp.attach c) (runSSE L1 sv)) h2 hshape

/-- Witness for C8: a notification before the attach, and after the attach a
notification, a second client attaching, and a detach of the first client. -/
theorem c8_witness :
    initialThenTags ((runSSE
      ([SSEOp.publish TagName.niveau (Value.i 1)] ++ SSEOp.attach "a" ::
        [SSEOp.publish TagName.pompe (Value.b true), SSEOp.attach "b", SSEOp.detach "a"])
      sseInit).queues "a") :=
  c8_attach_initial_before_tags _ _ "a" sseInit (by decide) (by decide)
    (List.not_mem_nil _) rfl

end WaterStation
